import Mathlib

/-!
Verification of the workspace-isolated storage subsystem of
fastapi-cloud-workspaces.

The definitions below are a shallow embedding of the Python sources:
  src/backend/app/modules/storage/models.py      (StorageFile, StorageQuota)
  src/backend/app/modules/storage/service.py     (StorageService)
  src/backend/app/modules/storage/drivers/minio_driver.py
  src/backend/app/modules/storage/drivers/s3_driver.py
  src/backend/app/modules/storage/cleanup.py     (StorageCleanupService,
                                                  run_cleanup_job)

Conventions of the embedding:
  - timestamps are integers (seconds); `datetime.now()` becomes an explicit
    `now : Int` argument threaded through each operation;
  - UUIDs become `Nat` identifiers; binary streams are abstracted to their
    byte length, which is the only thing the code reads from them
    (seek to end / tell);
  - the metadata database is explicit state (lists of rows), the object
    backend is a list of objects keyed by `file_key`, and the local upload
    directory used by cleanup.py is a list of disk entries keyed by path;
  - exceptions become `Except` values; the only exception type raised by
    the service layer is `HTTPException(status_code, detail)`, embedded as
    `ServiceError.httpError`.
-/

deriving instance DecidableEq for Except

namespace CloudWorkspaces

/-- `FileStatus` enum from models.py. -/
inductive FileStatus where
  | uploading
  | active
  | deleted
  | archived
deriving DecidableEq, Repr

/-- A row of the `storage_files` table (models.py, `StorageFile`). Note
there is NO `file_path` column: cleanup.py nevertheless reads
`StorageFile.file_path` (lines 57, 109 and 238), which raises
`AttributeError` — see the cleanup section below. -/
structure StorageFile where
  id : Nat
  file_key : String
  original_filename : String
  content_type : String
  file_size : Int
  status : FileStatus
  workspace_id : Nat
  uploaded_by : Nat
  folder_path : Option String
  is_public : Bool
  expires_at : Option Int
  deleted_at : Option Int
  created_at : Int
deriving DecidableEq, Repr

/-- `StorageFile.is_deleted` (models.py line 141). -/
def StorageFile.is_deleted (f : StorageFile) : Bool :=
  f.deleted_at.isSome || f.status == FileStatus.deleted

/-- `StorageFile.is_expired` (models.py line 147). -/
def StorageFile.is_expired (f : StorageFile) (now : Int) : Bool :=
  match f.expires_at with
  | none => false
  | some t => now > t

/-- `StorageFile.soft_delete` (models.py line 153): set `deleted_at` to the
current time and `status` to deleted. -/
def StorageFile.soft_delete (f : StorageFile) (now : Int) : StorageFile :=
  { f with deleted_at := some now, status := FileStatus.deleted }

/-- A row of the `storage_quotas` table (models.py, `StorageQuota`). -/
structure StorageQuota where
  workspace_id : Nat
  max_storage_bytes : Option Int
  max_files : Option Int
  max_file_size_bytes : Option Int
  used_storage_bytes : Int
  used_files : Int
  enforce_quota : Bool
deriving DecidableEq, Repr

/-- Python truthiness of an `Optional[int]`: `None` and `0` are falsy.
models.py guards each quota check with `if self.max_... and ...`. -/
def intTruthy : Option Int → Bool
  | none => false
  | some v => v != 0

/-- `StorageQuota.can_upload_file` (models.py lines 235-260), translated
branch for branch, including the truthiness guards and the three reason
strings. -/
def StorageQuota.can_upload_file (q : StorageQuota) (file_size : Int) :
    Bool × String :=
  if !q.enforce_quota then
    (true, "Quota enforcement disabled")
  else if intTruthy q.max_file_size_bytes &&
      file_size > q.max_file_size_bytes.getD 0 then
    (false, "File size exceeds limit of " ++
      toString (q.max_file_size_bytes.getD 0) ++ " bytes")
  else if intTruthy q.max_storage_bytes &&
      q.used_storage_bytes + file_size > q.max_storage_bytes.getD 0 then
    (false, "Storage quota exceeded. Available: " ++
      toString (q.max_storage_bytes.getD 0 - q.used_storage_bytes) ++ " bytes")
  else if intTruthy q.max_files && q.used_files >= q.max_files.getD 0 then
    (false, "File count limit of " ++ toString (q.max_files.getD 0) ++
      " reached")
  else
    (true, "Upload allowed")

/-- The three quota limits, in the order §4.3 of the spec lists them. -/
inductive QuotaCheck where
  | fileSize
  | storage
  | fileCount
deriving DecidableEq, Repr

/-- Whether one quota limit fails for an upload of `file_size` bytes; a
limit that is unset (`none`) or zero is unlimited. -/
def quotaCheckFails (q : StorageQuota) (file_size : Int) :
    QuotaCheck → Bool
  | QuotaCheck.fileSize =>
      intTruthy q.max_file_size_bytes &&
        file_size > q.max_file_size_bytes.getD 0
  | QuotaCheck.storage =>
      intTruthy q.max_storage_bytes &&
        q.used_storage_bytes + file_size > q.max_storage_bytes.getD 0
  | QuotaCheck.fileCount =>
      intTruthy q.max_files && q.used_files >= q.max_files.getD 0

/-- The reason string models.py attaches to each failing limit. -/
def quotaCheckReason (q : StorageQuota) : QuotaCheck → String
  | QuotaCheck.fileSize =>
      "File size exceeds limit of " ++
        toString (q.max_file_size_bytes.getD 0) ++ " bytes"
  | QuotaCheck.storage =>
      "Storage quota exceeded. Available: " ++
        toString (q.max_storage_bytes.getD 0 - q.used_storage_bytes) ++
        " bytes"
  | QuotaCheck.fileCount =>
      "File count limit of " ++ toString (q.max_files.getD 0) ++ " reached"

/-- The admission check the way §4.3 of the spec words it: walk the limits
in the fixed order file-size, storage, file-count; return the reason of the
first limit that fails; if `enforce_quota` is off every upload is allowed.
A limit that is unset or zero is unlimited (the amendment forced by the
truthiness guards in models.py). -/
def canUploadOrderedSpec (q : StorageQuota) (file_size : Int) :
    Bool × String :=
  if !q.enforce_quota then
    (true, "Quota enforcement disabled")
  else
    match [QuotaCheck.fileSize, QuotaCheck.storage,
        QuotaCheck.fileCount].find? (quotaCheckFails q file_size) with
    | some c => (false, quotaCheckReason q c)
    | none => (true, "Upload allowed")

/-! ## Storage drivers (minio_driver.py, s3_driver.py)

Both drivers wrap an S3 compatible client. The backend is a set of objects
keyed by `file_key`; `connected` models whether the backend is reachable
(when it is not, the SDK raises `S3Error`/`ClientError`, which
`delete_file` catches and turns into `False`). The S3 DELETE verb of the
protocol (spec section 6: standard S3 compatible verbs) is a no-op success
for an absent key: `remove_object`/`delete_object` raise no error when the
key does not exist, so the `except` branch is not taken. -/

/-- An object held by the storage backend, keyed by `file_key`. -/
structure BackendObject where
  key : String
  size : Int
deriving DecidableEq, Repr

/-- The S3 compatible DELETE verb: remove every object under the key;
removing an absent key is a silent no-op (HTTP 204 either way). -/
def s3DeleteObject (backend : List BackendObject) (key : String) :
    List BackendObject :=
  backend.filter (fun o => o.key != key)

/-- A row of `storage_access_logs` (models.py, `StorageAccessLog`). -/
structure StorageAccessLog where
  file_id : Nat
  user_id : Option Nat
  action : String
deriving DecidableEq, Repr

/-- The metadata database: the three tables the storage service touches. -/
structure Db where
  files : List StorageFile
  quotas : List StorageQuota
  access_logs : List StorageAccessLog
deriving DecidableEq, Repr

/-- Database plus object backend: the state a `StorageService` call reads
and writes. -/
structure ServiceState where
  db : Db
  backend : List BackendObject
deriving DecidableEq, Repr

/-- The failures a service call can surface: an
`fastapi.HTTPException(status_code, detail)` raised by the service itself,
or an SDK exception from the storage backend that the service does not
catch (`S3Error`/`ClientError` propagating out of the driver). -/
inductive ServiceError where
  | httpError (statusCode : Nat) (detail : String)
  | backendFailure
deriving DecidableEq, Repr

/-- `StorageService._get_file_or_404` (service.py lines 447-465): select
the file whose `id` matches AND whose `workspace_id` is the workspace of
the service handle; raise HTTP 404 `File not found` when there is none. -/
def getFileOr404 (db : Db) (workspace_id file_id : Nat) :
    Except ServiceError StorageFile :=
  match db.files.find? (fun f =>
      f.id == file_id && f.workspace_id == workspace_id) with
  | some f => Except.ok f
  | none => Except.error (ServiceError.httpError 404 "File not found")

/-- `StorageService._log_access` (service.py lines 467-481): append a row
to `storage_access_logs`; any exception from the write (`audit_fails`) is
caught and logged, leaving the database as it was. -/
def logAccess (db : Db) (audit_fails : Bool) (file_id user_id : Nat)
    (action : String) : Db :=
  if audit_fails then
    db
  else
    { db with access_logs := db.access_logs ++
        [{ file_id := file_id, user_id := some user_id, action := action }] }

/-- Default quota created by `get_or_create_quota` (service.py lines
95-103): 1 GiB, 1000 files, 100 MiB per file, enforced. -/
def defaultQuota (workspace_id : Nat) : StorageQuota :=
  { workspace_id := workspace_id
    max_storage_bytes := some (1024 * 1024 * 1024)
    max_files := some 1000
    max_file_size_bytes := some (100 * 1024 * 1024)
    used_storage_bytes := 0
    used_files := 0
    enforce_quota := true }

/-- `StorageService.get_or_create_quota` (service.py lines 87-108): return
the workspace quota row, inserting the default one first when absent. -/
def getOrCreateQuota (db : Db) (workspace_id : Nat) : StorageQuota × Db :=
  match db.quotas.find? (fun q => q.workspace_id == workspace_id) with
  | some q => (q, db)
  | none =>
      let q := defaultQuota workspace_id
      (q, { db with quotas := db.quotas ++ [q] })

/-- Apply an update to the quota row of one workspace. -/
def updateQuota (db : Db) (workspace_id : Nat)
    (upd : StorageQuota → StorageQuota) : Db :=
  { db with quotas := db.quotas.map (fun q =>
      if q.workspace_id == workspace_id then upd q else q) }

/-- Replace the first list element satisfying `p` by `upd` of it (the ORM
mutation of one found row). -/
def updateFirst (p : α → Bool) (upd : α → α) : List α → List α
  | [] => []
  | x :: xs => if p x then upd x :: xs else x :: updateFirst p upd xs

/-- Remove the first list element satisfying `p` (the ORM delete of one
found row). -/
def removeFirst (p : α → Bool) : List α → List α
  | [] => []
  | x :: xs => if p x then xs else x :: removeFirst p xs

/-- The fields of the `FileResponse` schema that `upload_file` returns. -/
structure FileResponse where
  id : Nat
  file_key : String
  filename : String
  content_type : String
  size : Int
  workspace_id : Nat
  uploaded_by : Nat
deriving DecidableEq, Repr

/-- Outcome of `StorageService.upload_file`: the returned value or raised
exception, the state afterwards, and how many writes reached the storage
backend. -/
structure UploadOutcome where
  result : Except ServiceError FileResponse
  state : ServiceState
  backendWrites : Nat
deriving DecidableEq, Repr

/-- `StorageService.upload_file` (service.py lines 110-211). The binary
stream is abstracted to its length `file_size` (the code reads only
seek-to-end / tell from it); the driver generated uuid key and the
database assigned row id enter as the `new_key` / `new_id` arguments.
Sequence: quota check (HTTP 413 before any backend write on failure),
backend put, `StorageFile` row insert, quota counters bumped, commit,
then the fire-and-forget access log write. -/
def uploadFile (st : ServiceState) (audit_fails : Bool)
    (workspace_id user_id : Nat) (file_size : Int)
    (filename content_type : String) (new_key : String) (new_id : Nat)
    (now : Int) : UploadOutcome :=
  let (quota, db1) := getOrCreateQuota st.db workspace_id
  let check := quota.can_upload_file file_size
  if !check.1 then
    { result := Except.error (ServiceError.httpError 413 check.2)
      state := { db := db1, backend := st.backend }
      backendWrites := 0 }
  else
    let backend1 := st.backend ++ [{ key := new_key, size := file_size }]
    let sf : StorageFile :=
      { id := new_id
        file_key := new_key
        original_filename := filename
        content_type := content_type
        file_size := file_size
        status := FileStatus.active
        workspace_id := workspace_id
        uploaded_by := user_id
        folder_path := none
        is_public := false
        expires_at := none
        deleted_at := none
        created_at := now }
    let db2 := { db1 with files := db1.files ++ [sf] }
    let db3 := updateQuota db2 workspace_id (fun q =>
      { q with used_storage_bytes := q.used_storage_bytes + file_size
               used_files := q.used_files + 1 })
    let db4 := logAccess db3 audit_fails new_id user_id "upload"
    { result := Except.ok
        { id := new_id, file_key := new_key, filename := filename
          content_type := content_type, size := file_size
          workspace_id := workspace_id, uploaded_by := user_id }
      state := { db := db4, backend := backend1 }
      backendWrites := 1 }

/-- Outcome of `StorageService.download_file`: the object handed back by
the driver (or the raised exception), the state afterwards, and how many
calls reached the storage backend. -/
structure DownloadOutcome where
  result : Except ServiceError BackendObject
  state : ServiceState
  backendCalls : Nat
deriving DecidableEq, Repr

/-- `StorageService.download_file` (service.py lines 213-254): find the
row via `_get_file_or_404`, reject deleted (HTTP 404) and expired
(HTTP 410) files, then fetch from the backend and log the access. A
missing backend object surfaces as the uncaught SDK exception. -/
def downloadFile (st : ServiceState) (audit_fails : Bool)
    (workspace_id file_id user_id : Nat) (now : Int) : DownloadOutcome :=
  match getFileOr404 st.db workspace_id file_id with
  | Except.error e =>
      { result := Except.error e, state := st, backendCalls := 0 }
  | Except.ok f =>
      if f.is_deleted then
        { result := Except.error
            (ServiceError.httpError 404 "File not found or has been deleted")
          state := st, backendCalls := 0 }
      else if f.is_expired now then
        { result := Except.error
            (ServiceError.httpError 410 "File has expired")
          state := st, backendCalls := 0 }
      else
        match st.backend.find? (fun o => o.key == f.file_key) with
        | none =>
            { result := Except.error ServiceError.backendFailure
              state := st, backendCalls := 1 }
        | some obj =>
            { result := Except.ok obj
              state := { st with
                db := logAccess st.db audit_fails file_id user_id "download" }
              backendCalls := 1 }

/-- Outcome of `StorageService.delete_file`. -/
structure DeleteOutcome where
  result : Except ServiceError Bool
  state : ServiceState
  backendCalls : Nat
deriving DecidableEq, Repr

/-- `StorageService.delete_file` (service.py lines 256-300). Hard delete:
driver delete (its boolean result is discarded; `backend_delete_ok` is
whether the backend actually removed the object or reported failure),
then quota counters decremented, row removed, commit. Soft delete:
`StorageFile.soft_delete` on the row only. Both end with the
fire-and-forget access log write. -/
def deleteFile (st : ServiceState) (audit_fails backend_delete_ok : Bool)
    (workspace_id file_id user_id : Nat) (hard_delete : Bool)
    (now : Int) : DeleteOutcome :=
  match getFileOr404 st.db workspace_id file_id with
  | Except.error e =>
      { result := Except.error e, state := st, backendCalls := 0 }
  | Except.ok f =>
      if hard_delete then
        let backend1 :=
          if backend_delete_ok then s3DeleteObject st.backend f.file_key
          else st.backend
        let (_, db1) := getOrCreateQuota st.db workspace_id
        let db2 := updateQuota db1 workspace_id (fun q =>
          { q with used_storage_bytes := q.used_storage_bytes - f.file_size
                   used_files := q.used_files - 1 })
        let db3 := { db2 with files := removeFirst (fun g =>
          g.id == file_id && g.workspace_id == workspace_id) db2.files }
        let db4 := logAccess db3 audit_fails file_id user_id "delete"
        { result := Except.ok true
          state := { db := db4, backend := backend1 }
          backendCalls := 1 }
      else
        let files1 := updateFirst (fun g =>
          g.id == file_id && g.workspace_id == workspace_id)
          (fun g => g.soft_delete now) st.db.files
        let db1 := logAccess { st.db with files := files1 }
          audit_fails file_id user_id "delete"
        { result := Except.ok true
          state := { db := db1, backend := st.backend }
          backendCalls := 0 }

/-- The `SignedUrlResult` schema. -/
structure SignedUrlResult where
  url : String
  expires_at : Int
  operation : String
deriving DecidableEq, Repr

/-- Outcome of `StorageService.generate_signed_url`. -/
structure SignedUrlOutcome where
  result : Except ServiceError SignedUrlResult
  state : ServiceState
deriving DecidableEq, Repr

/-- `StorageService.generate_signed_url` (service.py lines 373-421): find
the row, reject deleted files (HTTP 404), have the driver presign a url
for the file key, log the access. The presigning is a local computation
over the credentials, key and expiry. -/
def generateSignedUrl (st : ServiceState) (audit_fails : Bool)
    (workspace_id file_id user_id : Nat) (expiration : Int)
    (operation : String) (now : Int) : SignedUrlOutcome :=
  match getFileOr404 st.db workspace_id file_id with
  | Except.error e => { result := Except.error e, state := st }
  | Except.ok f =>
      if f.is_deleted then
        { result := Except.error
            (ServiceError.httpError 404 "File not found or has been deleted")
          state := st }
      else
        let url := "presigned:" ++ operation ++ ":" ++ f.file_key
        let res : SignedUrlResult :=
          { url := url, expires_at := now + expiration
            operation := operation }
        let db1 := logAccess st.db audit_fails file_id user_id
          ("signed_url_" ++ operation)
        { result := Except.ok res
          state := { st with db := db1 } }

/-! ## Cleanup / reconciliation (cleanup.py)

`StorageCleanupService` works on the upload directory (a set of disk
entries keyed by path) and the `storage_files` table. The quota table is
part of the state so that its treatment by the job is visible: cleanup.py
never imports or touches `StorageQuota`.

cleanup.py reads a `file_path` attribute from `StorageFile` at lines 57,
109 and 238, but models.py defines no such column (its columns are
`file_key`, `original_filename`, `content_type`, `file_size`, `status`,
`storage_provider`, `workspace_id`, `uploaded_by`, `file_metadata`,
`folder_path`, `tags`, `is_public`, `expires_at`, `deleted_at` plus the
base id and timestamps), and nothing else defines it. In Python every
such access raises `AttributeError`; the embedding models this with
`PyError` results. -/

/-- A Python exception escaping a cleanup function. -/
inductive PyError where
  | attributeError (msg : String)
deriving DecidableEq, Repr

/-- The `AttributeError` raised by any access to `StorageFile.file_path`
(class attribute at cleanup.py line 57, instance attribute at lines 109
and 238): models.py defines no `file_path` column. -/
def storageFileFilePathAttributeError : PyError :=
  PyError.attributeError "StorageFile has no attribute file_path"

/-- One file in the upload directory: its path relative to the storage
root, its modification time and its size. -/
structure DiskFile where
  path : String
  mtime : Int
  size : Int
deriving DecidableEq, Repr

/-- The state a cleanup run reads and writes. `storage_path_exists` is
whether the upload directory exists (`self.storage_path.exists()`,
cleanup.py line 51). -/
structure CleanupState where
  storage_path_exists : Bool
  disk : List DiskFile
  dbFiles : List StorageFile
  quotas : List StorageQuota
deriving DecidableEq, Repr

/-- `StorageCleanupService.find_orphaned_files` (cleanup.py lines 38-83).
When the upload directory does not exist the function logs a warning and
returns the empty list (lines 51-53). Otherwise line 57 builds
`select(StorageFile.file_path)`: the class-attribute access raises an
uncaught `AttributeError`, and the directory walk of lines 62-82 that
would compare mtimes against the `older_than_hours` cutoff is never
reached. -/
def find_orphaned_files (st : CleanupState) (now : Int)
    (older_than_hours : Int := 24) : Except PyError (List DiskFile) :=
  if !st.storage_path_exists then
    Except.ok []
  else
    Except.error storageFileFilePathAttributeError

/-- Whether one row is selected by the garbage collection query:
soft-deleted longer ago than the retention window (cleanup.py lines
215-224; `deleted_at` is a real column, so the query itself works). -/
def gcCandidatePred (older_than_days : Nat) (now : Int)
    (f : StorageFile) : Bool :=
  f.deleted_at.isSome &&
    f.deleted_at.getD 0 < now - (older_than_days : Int) * 86400

/-- The statistics dict of `cleanup_soft_deleted_files`. -/
structure SoftDeletedStats where
  files_found : Nat
  files_deleted : Nat
  records_deleted : Nat
  files_failed : Nat
  bytes_freed : Int
deriving DecidableEq, Repr

/-- One iteration of the loop in `cleanup_soft_deleted_files`
(cleanup.py lines 236-265). The first statement of the per-item `try`
block, `file_path = self.storage_path / db_file.file_path` (line 238),
raises `AttributeError` — models.py has no `file_path` column — which
the `except Exception` at line 261 catches: `files_failed` is
incremented and an error string appended (lines 262-264), and neither
the disk nor the database row is touched. -/
def gcStep (dry_run : Bool)
    (acc : SoftDeletedStats × List DiskFile × List StorageFile)
    (f : StorageFile) :
    SoftDeletedStats × List DiskFile × List StorageFile :=
  ({ acc.1 with files_failed := acc.1.files_failed + 1 },
   acc.2.1, acc.2.2)

/-- `StorageCleanupService.cleanup_soft_deleted_files` (cleanup.py lines
204-274): select the rows soft-deleted before the retention cutoff and
run `gcStep` over them. Every item fails with the caught
`AttributeError`, so `records_deleted` stays 0 and the commit guarded by
`records_deleted > 0` at line 267 never runs; the function itself never
raises. -/
def cleanup_soft_deleted_files (st : CleanupState)
    (older_than_days : Nat) (dry_run : Bool) (now : Int) :
    SoftDeletedStats × CleanupState :=
  let cands := st.dbFiles.filter (gcCandidatePred older_than_days now)
  let init : SoftDeletedStats :=
    { files_found := cands.length, files_deleted := 0
      records_deleted := 0, files_failed := 0, bytes_freed := 0 }
  let out := cands.foldl (gcStep dry_run) (init, st.disk, st.dbFiles)
  (out.1, { st with disk := out.2.1, dbFiles := out.2.2 })

/-- A quota at the boundary scenario of spec section 8: 10 MB cap with
9.5 MB used, enforcement on, the other limits unset. -/
def quotaBoundaryQuota : StorageQuota :=
  { workspace_id := 1
    max_storage_bytes := some 10000000
    max_files := none
    max_file_size_bytes := none
    used_storage_bytes := 9500000
    used_files := 3
    enforce_quota := true }

/-- Service state holding only the boundary quota. -/
def quotaBoundaryState : ServiceState :=
  { db := { files := [], quotas := [quotaBoundaryQuota], access_logs := [] }
    backend := [] }

/-- A quota whose storage limit is set to the integer 0 while enforcement
is on: the Python truthiness guard skips a zero limit. -/
def zeroLimitQuota : StorageQuota :=
  { workspace_id := 1
    max_storage_bytes := some 0
    max_files := none
    max_file_size_bytes := none
    used_storage_bytes := 0
    used_files := 0
    enforce_quota := true }

/-- A file owned by workspace 1. -/
def fileOfWorkspace1 : StorageFile :=
  { id := 1
    file_key := "workspaces/1/files/u1_report.txt"
    original_filename := "report.txt"
    content_type := "text/plain"
    file_size := 5
    status := FileStatus.active
    workspace_id := 1
    uploaded_by := 7
    folder_path := none
    is_public := false
    expires_at := none
    deleted_at := none
    created_at := 0 }

/-- State with workspace 1 owning one file whose object is present in the
backend; used to issue requests through a workspace 2 handle. -/
def crossWsState : ServiceState :=
  { db := { files := [fileOfWorkspace1], quotas := [], access_logs := [] }
    backend := [{ key := "workspaces/1/files/u1_report.txt", size := 5 }] }

/-- A disk object written at time 0 with no database row, the upload
directory present: the orphan of the detection timing scenario. -/
def orphanTimingState : CleanupState :=
  { storage_path_exists := true
    disk := [{ path := "files/orphan.bin", mtime := 0, size := 10 }]
    dbFiles := []
    quotas := [] }

/-- A record soft-deleted 29 days before the instant 3456000 = 40 days. -/
def gcRecord29 : StorageFile :=
  { id := 21
    file_key := "files/k21"
    original_filename := "young.bin"
    content_type := "application/octet-stream"
    file_size := 11
    status := FileStatus.deleted
    workspace_id := 1
    uploaded_by := 7
    folder_path := none
    is_public := false
    expires_at := none
    deleted_at := some (3456000 - 29 * 86400)
    created_at := 0 }

/-- A record soft-deleted 31 days before the instant 3456000. -/
def gcRecord31 : StorageFile :=
  { id := 22
    file_key := "files/k22"
    original_filename := "old.bin"
    content_type := "application/octet-stream"
    file_size := 13
    status := FileStatus.deleted
    workspace_id := 1
    uploaded_by := 7
    folder_path := none
    is_public := false
    expires_at := none
    deleted_at := some (3456000 - 31 * 86400)
    created_at := 0 }

/-- Cleanup state holding both soft-deleted records and their two backend
objects on disk. -/
def gcTimingState : CleanupState :=
  { storage_path_exists := true
    disk := [{ path := "files/k21", mtime := 0, size := 11 },
             { path := "files/k22", mtime := 0, size := 13 }]
    dbFiles := [gcRecord29, gcRecord31]
    quotas := [] }

/-- The workspace 1 quota row counting the single 5 byte file. -/
def deleteEffectsQuota : StorageQuota :=
  { workspace_id := 1
    max_storage_bytes := some 1000000
    max_files := some 1000
    max_file_size_bytes := none
    used_storage_bytes := 5
    used_files := 1
    enforce_quota := true }

/-- A service state with one active file and its quota row, for the
delete-effects check. -/
def deleteEffectsState : ServiceState :=
  { db := { files := [fileOfWorkspace1]
            quotas := [deleteEffectsQuota]
            access_logs := [] }
    backend := [{ key := "workspaces/1/files/u1_report.txt", size := 5 }] }

/-! ## Helper lemmas about the list operations of the embedding -/

theorem logAccess_quotas (db : Db) (a : Bool) (i u : Nat) (act : String) :
    (logAccess db a i u act).quotas = db.quotas := by
  unfold logAccess
  split <;> rfl

theorem logAccess_files (db : Db) (a : Bool) (i u : Nat) (act : String) :
    (logAccess db a i u act).files = db.files := by
  unfold logAccess
  split <;> rfl

theorem updateFirst_find? {α : Type} (p : α → Bool) (upd : α → α)
    (l : List α) (x : α) (hfind : l.find? p = some x)
    (hupd : p (upd x) = true) :
    (updateFirst p upd l).find? p = some (upd x) := by
  induction l with
  | nil => simp at hfind
  | cons a l ih =>
      cases hpa : p a with
      | true =>
          rw [List.find?_cons_of_pos _ hpa] at hfind
          obtain rfl : a = x := by injection hfind
          rw [updateFirst, if_pos hpa]
          rw [List.find?_cons_of_pos _ hupd]
      | false =>
          rw [List.find?_cons_of_neg _ (by simp [hpa])] at hfind
          rw [updateFirst, if_neg (by simp [hpa])]
          rw [List.find?_cons_of_neg _ (by simp [hpa])]
          exact ih hfind

theorem mem_updateFirst_of_not_pred {α : Type} {p : α → Bool}
    {upd : α → α} {l : List α} {g : α} (hg : g ∈ l)
    (hp : p g = false) : g ∈ updateFirst p upd l := by
  induction l with
  | nil => cases hg
  | cons a l ih =>
      cases hpa : p a with
      | true =>
          rw [updateFirst, if_pos hpa]
          rcases List.mem_cons.mp hg with h | h
          · subst h
            rw [hp] at hpa
            cases hpa
          · exact List.mem_cons_of_mem _ h
      | false =>
          rw [updateFirst, if_neg (by simp [hpa])]
          rcases List.mem_cons.mp hg with h | h
          · subst h
            exact List.mem_cons_self _ _
          · exact List.mem_cons_of_mem _ (ih h)

theorem removeFirst_eq_of_find? {α : Type} (p : α → Bool) (l : List α)
    (x : α) (h : l.find? p = some x) :
    ∃ l₁ l₂, l = l₁ ++ x :: l₂ ∧ removeFirst p l = l₁ ++ l₂ := by
  induction l with
  | nil => simp at h
  | cons a l ih =>
      cases hpa : p a with
      | true =>
          rw [List.find?_cons_of_pos _ hpa] at h
          obtain rfl : a = x := by injection h
          exact ⟨[], l, rfl, by rw [removeFirst, if_pos hpa]; rfl⟩
      | false =>
          rw [List.find?_cons_of_neg _ (by simp [hpa])] at h
          obtain ⟨l₁, l₂, hl, hrm⟩ := ih h
          refine ⟨a :: l₁, l₂, by simp [hl], ?_⟩
          rw [removeFirst, if_neg (by simp [hpa]), hrm]
          rfl

theorem find?_map_update_quota (l : List StorageQuota) (ws : Nat)
    (q : StorageQuota) (upd : StorageQuota → StorageQuota)
    (hw : ∀ x, (upd x).workspace_id = x.workspace_id)
    (hfind : l.find? (fun x => x.workspace_id == ws) = some q) :
    (l.map (fun x => if x.workspace_id == ws then upd x else x)).find?
      (fun x => x.workspace_id == ws) = some (upd q) := by
  induction l with
  | nil => simp at hfind
  | cons a l ih =>
      cases hpa : (a.workspace_id == ws) with
      | true =>
          rw [List.find?_cons_of_pos
            (p := fun x : StorageQuota => x.workspace_id == ws) _ hpa] at hfind
          obtain rfl : a = q := by injection hfind
          simp only [List.map_cons]
          have h1 : (if a.workspace_id == ws then upd a else a)
              = upd a := by simp [hpa]
          have hpa2 : ((upd a).workspace_id == ws) = true := by
            rw [hw]
            exact hpa
          rw [h1, List.find?_cons_of_pos
            (p := fun x : StorageQuota => x.workspace_id == ws) _ hpa2]
      | false =>
          rw [List.find?_cons_of_neg
            (p := fun x : StorageQuota => x.workspace_id == ws) _ (by simp [hpa])]
            at hfind
          simp only [List.map_cons]
          have h1 : (if a.workspace_id == ws then upd a else a) = a := by
            simp [hpa]
          rw [h1, List.find?_cons_of_neg
            (p := fun x : StorageQuota => x.workspace_id == ws) _ (by simp [hpa])]
          exact ih hfind

theorem getOrCreateQuota_of_find? (db : Db) (ws : Nat) (q : StorageQuota)
    (hq : db.quotas.find? (fun x => x.workspace_id == ws) = some q) :
    getOrCreateQuota db ws = (q, db) := by
  rw [getOrCreateQuota, hq]

theorem getFileOr404_find? (db : Db) (ws fid : Nat) (f : StorageFile)
    (hf : getFileOr404 db ws fid = Except.ok f) :
    db.files.find? (fun g => g.id == fid && g.workspace_id == ws)
      = some f := by
  rcases hm : db.files.find? (fun g =>
      g.id == fid && g.workspace_id == ws) with _ | g
  · rw [getFileOr404, hm] at hf
    simp at hf
  · rw [getFileOr404, hm] at hf
    obtain rfl : g = f := by
      have h2 : Except.ok (ε := ServiceError) g = Except.ok f := hf
      injection h2
    exact hm

/-! ## Claim C5 -/

/-- C5: with `max_storage_bytes = 10_000_000`, `used_storage_bytes =
9_500_000` and enforcement on, an upload of 600_000 bytes is rejected
with the quota-exceeded error (HTTP 413) before any backend write, while
an upload of 400_000 bytes is admitted, raises `used_storage_bytes` to
exactly 9_900_000 and increments `used_files` by one. -/
theorem quota_boundary_reject_and_admit :
    (uploadFile quotaBoundaryState false 1 7 600000 "big.bin"
        "application/octet-stream" "files/u2_big.bin" 10 0).result =
      Except.error (ServiceError.httpError 413
        "Storage quota exceeded. Available: 500000 bytes") ∧
    (uploadFile quotaBoundaryState false 1 7 600000 "big.bin"
        "application/octet-stream" "files/u2_big.bin" 10 0).backendWrites
      = 0 ∧
    (uploadFile quotaBoundaryState false 1 7 600000 "big.bin"
        "application/octet-stream" "files/u2_big.bin" 10 0).state.backend
      = [] ∧
    (uploadFile quotaBoundaryState false 1 7 400000 "ok.bin"
        "application/octet-stream" "files/u3_ok.bin" 11 0).result =
      Except.ok
        { id := 11, file_key := "files/u3_ok.bin", filename := "ok.bin"
          content_type := "application/octet-stream", size := 400000
          workspace_id := 1, uploaded_by := 7 } ∧
    (uploadFile quotaBoundaryState false 1 7 400000 "ok.bin"
        "application/octet-stream" "files/u3_ok.bin" 11 0).state.db.quotas
      = [{ quotaBoundaryQuota with
            used_storage_bytes := 9900000, used_files := 4 }] := by
  decide

/-! ## Claim C6 -/

/-- C6 counterexample: a quota state with enforcement on and the storage
limit set to the integer 0; an upload of one byte makes
`used_storage_bytes + size > max_storage_bytes` hold, so under the claim
the check must fail with the storage reason, yet `can_upload_file`
returns allowed: the truthiness guard treats the set-but-zero limit as
unlimited. -/
theorem can_upload_zero_limit_counterexample :
    zeroLimitQuota.enforce_quota = true ∧
    zeroLimitQuota.max_storage_bytes = some 0 ∧
    zeroLimitQuota.used_storage_bytes + 1 >
      zeroLimitQuota.max_storage_bytes.getD 0 ∧
    (zeroLimitQuota.can_upload_file 1).1 = true := by
  decide

/-- C6 amended: `can_upload_file` agrees with the ordered first-failing
check walk of spec section 4.3 — limits evaluated in the order file size,
storage, file count, the reason of the first failing limit returned, every
upload allowed when `enforce_quota` is off — once a limit that is unset
OR ZERO is treated as unlimited. -/
theorem can_upload_file_ordered (q : StorageQuota) (s : Int) :
    q.can_upload_file s = canUploadOrderedSpec q s ∧
    (q.enforce_quota = false → (q.can_upload_file s).1 = true) := by
  constructor
  · have hform : q.can_upload_file s =
        (if !q.enforce_quota then (true, "Quota enforcement disabled")
         else if quotaCheckFails q s QuotaCheck.fileSize then
           (false, quotaCheckReason q QuotaCheck.fileSize)
         else if quotaCheckFails q s QuotaCheck.storage then
           (false, quotaCheckReason q QuotaCheck.storage)
         else if quotaCheckFails q s QuotaCheck.fileCount then
           (false, quotaCheckReason q QuotaCheck.fileCount)
         else (true, "Upload allowed")) := rfl
    rw [hform]
    unfold canUploadOrderedSpec
    cases hq : q.enforce_quota with
    | false => simp
    | true =>
        cases hb1 : quotaCheckFails q s QuotaCheck.fileSize <;>
        cases hb2 : quotaCheckFails q s QuotaCheck.storage <;>
        cases hb3 : quotaCheckFails q s QuotaCheck.fileCount <;>
          simp [List.find?, hb1, hb2, hb3]
  · intro h
    simp [StorageQuota.can_upload_file, h]

/-! ## Claim C3 -/

/-- C2 counterexample: workspace 1 owns file 1 (a workspace 1 handle
downloads it fine), but through a workspace 2 handle the request fails
with the generic HTTP 404 `File not found` — byte for byte the same
failure as asking for an id that exists nowhere. The code raises no
distinct cross-workspace access error. -/
theorem cross_workspace_same_error_as_missing :
    (downloadFile crossWsState false 2 1 9 0).result =
      Except.error (ServiceError.httpError 404 "File not found") ∧
    (downloadFile crossWsState false 2 999 9 0).result =
      (downloadFile crossWsState false 2 1 9 0).result ∧
    (downloadFile crossWsState false 1 1 9 0).result =
      Except.ok { key := "workspaces/1/files/u1_report.txt", size := 5 }
    := by
  decide

/-- C2 amended: a request (download, delete, signed url) for a file id
that does not belong to the requesting workspace fails with the generic
HTTP 404 `File not found` — the same error as for a nonexistent file —
performs no call to the storage backend, and leaves all state
unchanged. -/
theorem cross_workspace_request_404 (st : ServiceState) (audit : Bool)
    (wsB fid uid : Nat) (now : Int)
    (h : ∀ f ∈ st.db.files, f.id = fid → f.workspace_id ≠ wsB) :
    (downloadFile st audit wsB fid uid now).result =
      Except.error (ServiceError.httpError 404 "File not found") ∧
    (downloadFile st audit wsB fid uid now).backendCalls = 0 ∧
    (downloadFile st audit wsB fid uid now).state = st ∧
    (∀ bok hard : Bool,
      (deleteFile st audit bok wsB fid uid hard now).result =
        Except.error (ServiceError.httpError 404 "File not found") ∧
      (deleteFile st audit bok wsB fid uid hard now).backendCalls = 0 ∧
      (deleteFile st audit bok wsB fid uid hard now).state = st) ∧
    (∀ (expiration : Int) (op : String),
      (generateSignedUrl st audit wsB fid uid expiration op now).result =
        Except.error (ServiceError.httpError 404 "File not found") ∧
      (generateSignedUrl st audit wsB fid uid expiration op now).state
        = st) := by
  have hnone : st.db.files.find? (fun f =>
      f.id == fid && f.workspace_id == wsB) = none := by
    apply List.find?_eq_none.mpr
    intro f hf
    simp only [Bool.and_eq_true, beq_iff_eq, not_and]
    intro hid
    simpa using h f hf hid
  have h404 : getFileOr404 st.db wsB fid =
      Except.error (ServiceError.httpError 404 "File not found") := by
    simp [getFileOr404, hnone]
  refine ⟨?_, ?_, ?_, ?_, ?_⟩
  · simp [downloadFile, h404]
  · simp [downloadFile, h404]
  · simp [downloadFile, h404]
  · intro bok hard
    refine ⟨?_, ?_, ?_⟩ <;> simp [deleteFile, h404]
  · intro expiration op
    refine ⟨?_, ?_⟩ <;> simp [generateSignedUrl, h404]

/-- C2 witness: the amended statement evaluated on the concrete cross
workspace state, a workspace 2 handle asking for workspace 1 file 1. -/
theorem cross_workspace_request_404_witness :
    (downloadFile crossWsState false 2 1 9 0).result =
      Except.error (ServiceError.httpError 404 "File not found") ∧
    (downloadFile crossWsState false 2 1 9 0).backendCalls = 0 ∧
    (deleteFile crossWsState false true 2 1 9 true 0).result =
      Except.error (ServiceError.httpError 404 "File not found") ∧
    (generateSignedUrl crossWsState false 2 1 9 3600 "GET" 0).result =
      Except.error (ServiceError.httpError 404 "File not found") := by
  have h := cross_workspace_request_404 crossWsState false 2 1 9 0
    (by decide)
  exact ⟨h.1, h.2.1, (h.2.2.2.1 true true).1, (h.2.2.2.2 3600 "GET").1⟩

/-! ## Claim C1 -/

/-- C7: the orphaned-files detector cannot report the object at all. A
backend object written directly at time 0 sits in the upload directory,
so `storage_path.exists()` is true and `find_orphaned_files` evaluates
`select(StorageFile.file_path)` (cleanup.py line 57) — an attribute
models.py does not define — raising an uncaught `AttributeError` both
one hour and twenty-five hours later. The claim expects a report at
T + 25h; the code never produces one. -/
theorem orphan_detection_crashes :
    find_orphaned_files orphanTimingState 3600 24 =
      Except.error storageFileFilePathAttributeError ∧
    find_orphaned_files orphanTimingState (25 * 3600) 24 =
      Except.error storageFileFilePathAttributeError ∧
    orphanTimingState.storage_path_exists = true ∧
    orphanTimingState.disk =
      [{ path := "files/orphan.bin", mtime := 0, size := 10 }] ∧
    orphanTimingState.dbFiles = [] := by
  decide

/-! ## Claim C9 -/

/-- C9: the access-audit write is fire-and-forget. For upload, download,
delete and signed-url generation, the value returned (or exception
raised) by the operation is identical whether the audit write fails
(`audit_fails = true`; the exception is caught in `_log_access`) or
succeeds. -/
theorem audit_failure_never_propagates (st : ServiceState)
    (ws uid fid : Nat) (fsz : Int) (fn ct nk : String) (nid : Nat)
    (now expiration : Int) (op : String) (bok hard : Bool) :
    (uploadFile st true ws uid fsz fn ct nk nid now).result =
      (uploadFile st false ws uid fsz fn ct nk nid now).result ∧
    (downloadFile st true ws fid uid now).result =
      (downloadFile st false ws fid uid now).result ∧
    (deleteFile st true bok ws fid uid hard now).result =
      (deleteFile st false bok ws fid uid hard now).result ∧
    (generateSignedUrl st true ws fid uid expiration op now).result =
      (generateSignedUrl st false ws fid uid expiration op now).result
    := by
  refine ⟨?_, ?_, ?_, ?_⟩
  · simp only [uploadFile]
    split <;> rfl
  · simp only [downloadFile]
    rcases getFileOr404 st.db ws fid with e | f
    · rfl
    · by_cases h1 : f.is_deleted
      · simp [h1]
      · by_cases h2 : f.is_expired now
        · simp [h1, h2]
        · simp only [h1, h2, Bool.false_eq_true, if_false]
          cases hfb : st.backend.find? (fun o =>
              o.key == f.file_key) with
          | none => simp [hfb]
          | some obj => simp [hfb]
  · simp only [deleteFile]
    rcases getFileOr404 st.db ws fid with e | f
    · rfl
    · by_cases h1 : hard <;> simp [h1]
  · simp only [generateSignedUrl]
    rcases getFileOr404 st.db ws fid with e | f
    · rfl
    · by_cases h1 : f.is_deleted <;> simp [h1]

/-! ## Claim C10 -/

/-- C10: for an existing file, soft delete (`hard_delete = false`) returns
true, marks only the record (`deleted_at` set to now, `status` set to
deleted), keeps every other record, and leaves the quota counters and
the backend untouched — the soft-deleted file keeps counting against the
quota. Hard delete returns true, decrements `used_storage_bytes` by the
file size and `used_files` by one, removes the record — and does all of
that identically whether the backend delete reported success or failure,
whose boolean the code discards. -/
theorem delete_file_quota_and_frame (st : ServiceState)
    (audit bok : Bool) (ws fid uid : Nat) (now : Int)
    (f : StorageFile) (q : StorageQuota)
    (hf : getFileOr404 st.db ws fid = Except.ok f)
    (hq : st.db.quotas.find? (fun x => x.workspace_id == ws) = some q)
    (hids : (st.db.files.map (fun g => g.id)).Nodup) :
    (deleteFile st audit bok ws fid uid false now).result =
      Except.ok true ∧
    (deleteFile st audit bok ws fid uid false now).state.db.quotas =
      st.db.quotas ∧
    (deleteFile st audit bok ws fid uid false now).state.backend =
      st.backend ∧
    f.soft_delete now =
      { f with deleted_at := some now, status := FileStatus.deleted } ∧
    ((deleteFile st audit bok ws fid uid false now).state.db.files.find?
      (fun g => g.id == fid && g.workspace_id == ws)) =
        some (f.soft_delete now) ∧
    (∀ g ∈ st.db.files, (g.id == fid && g.workspace_id == ws) = false →
      g ∈ (deleteFile st audit bok ws fid uid false now).state.db.files) ∧
    (∀ b : Bool,
      (deleteFile st audit b ws fid uid true now).result =
        Except.ok true ∧
      (deleteFile st audit b ws fid uid true now).state.db.quotas.find?
        (fun x => x.workspace_id == ws) =
          some { q with
            used_storage_bytes := q.used_storage_bytes - f.file_size
            used_files := q.used_files - 1 } ∧
      (∀ g ∈ (deleteFile st audit b ws fid uid true now).state.db.files,
        g.id ≠ f.id)) ∧
    (deleteFile st audit true ws fid uid true now).state.db =
      (deleteFile st audit false ws fid uid true now).state.db := by
  have hfind := getFileOr404_find? st.db ws fid f hf
  have hpredf : (f.id == fid && f.workspace_id == ws) = true :=
    List.find?_some (p := fun g : StorageFile =>
      g.id == fid && g.workspace_id == ws) hfind
  have hgocq := getOrCreateQuota_of_find? st.db ws q hq
  have hsoftfiles : (deleteFile st audit bok ws fid uid false
      now).state.db.files =
      updateFirst (fun g => g.id == fid && g.workspace_id == ws)
        (fun g => g.soft_delete now) st.db.files := by
    simp [deleteFile, hf, logAccess_files]
  refine ⟨?_, ?_, ?_, rfl, ?_, ?_, ?_, ?_⟩
  · simp [deleteFile, hf]
  · simp [deleteFile, hf, logAccess_quotas]
  · simp [deleteFile, hf]
  · rw [hsoftfiles]
    apply updateFirst_find? _ _ _ _ hfind
    simpa [StorageFile.soft_delete] using hpredf
  · intro g hg hgp
    rw [hsoftfiles]
    exact mem_updateFirst_of_not_pred hg hgp
  · intro b
    obtain ⟨l₁, l₂, hdecomp, hrm⟩ := removeFirst_eq_of_find? _ _ _ hfind
    have hgone : ∀ g ∈ l₁ ++ l₂, g.id ≠ f.id := by
      intro g hg hgid
      have hmapeq : st.db.files.map (fun x => x.id) =
          l₁.map (fun x => x.id) ++ f.id :: l₂.map (fun x => x.id) := by
        rw [hdecomp]
        simp
      rw [hmapeq] at hids
      have hnot := (List.nodup_cons.mp (List.nodup_middle.mp hids)).1
      apply hnot
      rw [← hgid]
      have hmm : g.id ∈ (l₁ ++ l₂).map (fun x => x.id) :=
        List.mem_map_of_mem _ hg
      simpa using hmm
    have hhardfiles : (deleteFile st audit b ws fid uid true
        now).state.db.files =
        removeFirst (fun g => g.id == fid && g.workspace_id == ws)
          st.db.files := by
      simp [deleteFile, hf, hgocq, logAccess_files, updateQuota]
    have hhardquotas : (deleteFile st audit b ws fid uid true
        now).state.db.quotas =
        st.db.quotas.map (fun x =>
          if x.workspace_id == ws then
            { x with
              used_storage_bytes := x.used_storage_bytes - f.file_size
              used_files := x.used_files - 1 }
          else x) := by
      simp [deleteFile, hf, hgocq, logAccess_quotas, updateQuota]
    refine ⟨?_, ?_, ?_⟩
    · simp [deleteFile, hf]
    · rw [hhardquotas]
      exact find?_map_update_quota st.db.quotas ws q _
        (fun x => rfl) hq
    · intro g hg
      rw [hhardfiles, hrm] at hg
      exact hgone g hg
  · simp [deleteFile, hf]

/-- C10 witness: the delete-effects statement evaluated on the one-file
service state — soft delete keeps the quota row at 5 bytes in 1 file,
hard delete drops it to 0 bytes in 0 files. -/
theorem delete_file_quota_and_frame_witness :
    (deleteFile deleteEffectsState false true 1 1 9 false
      50).state.db.quotas = deleteEffectsState.db.quotas ∧
    (deleteFile deleteEffectsState false true 1 1 9 true
      50).state.db.quotas.find? (fun x => x.workspace_id == 1) =
      some { deleteEffectsQuota with
        used_storage_bytes := 0, used_files := 0 } := by
  have h := delete_file_quota_and_frame deleteEffectsState false true
    1 1 9 50 fileOfWorkspace1 deleteEffectsQuota
    (by decide) (by decide) (by decide)
  refine ⟨h.2.1, ?_⟩
  have h2 := (h.2.2.2.2.2.2.1 true).2.1
  simpa [fileOfWorkspace1, deleteEffectsQuota] using h2

/-! ## Claim C8 -/

/-- C8: the garbage collection deletes nothing. At `now = 3456000` (day
40) with retention 30 days and `dry_run = false`, the record soft-deleted
29 days ago is untouched as the claim says — but so is the one
soft-deleted 31 days ago: its loop iteration reads `db_file.file_path`
(cleanup.py line 238), a column models.py does not define, and the
`AttributeError` is caught per item (line 261), incrementing
`files_failed`. The report is `files_found = 1, files_failed = 1` with
zero deletions, and the state — both records and both backend objects —
comes back bit for bit unchanged, against the claimed removal of the
31-day object and row. -/
theorem soft_delete_gc_failure :
    (cleanup_soft_deleted_files gcTimingState 30 false 3456000).1 =
      ⟨1, 0, 0, 1, 0⟩ ∧
    (cleanup_soft_deleted_files gcTimingState 30 false 3456000).2 =
      gcTimingState ∧
    gcRecord31 ∈ gcTimingState.dbFiles ∧
    gcRecord31.deleted_at = some (3456000 - 31 * 86400) ∧
    gcRecord29 ∈ gcTimingState.dbFiles ∧
    gcRecord29.deleted_at = some (3456000 - 29 * 86400) := by
  decide

/-! ## Claim C4 -/

end CloudWorkspaces
